import Mathlib

/-!
Verification development for the scroll-processing backend.

The Python modules `divine_function.py`, `scroll_agent.py` and
`dashboard_ui.py` are shallowly embedded below: each class method becomes a
pure Lean function, mutable object state becomes an explicit state record
threaded through the functions, and wall-clock reads (`time.time()`,
`datetime.now()`) become explicit parameters.  Python strings are modelled
by `String`; `str.lower()` is modelled by ASCII lowering, which agrees with
the source on every keyword the program tests.  Python floats appearing in
derived display values are modelled by exact rationals.
-/

namespace ScrollV3

/-- Substring test on character lists: `listContains pat l` is true iff
`pat` occurs contiguously inside `l`. -/
def listContains (pat : List Char) : List Char → Bool
  | [] => pat.isEmpty
  | c :: rest => pat.isPrefixOf (c :: rest) || listContains pat rest

/-- Python `pat in s` substring containment. -/
def strContains (s pat : String) : Bool :=
  listContains pat.data s.data

/-- Python `s.lower()` (ASCII lowering model). -/
def pyLower (s : String) : String :=
  String.mk (s.data.map Char.toLower)

/-- Python `s.strip()`: remove leading and trailing whitespace. -/
def pyStrip (s : String) : String :=
  String.mk (((s.data.dropWhile Char.isWhitespace).reverse.dropWhile
    Char.isWhitespace).reverse)

/-- Maximal runs of non-separator characters, in order; `cur` accumulates
the current run reversed. -/
def pyRunsAux (sep : Char → Bool) : List Char → List Char → List (List Char)
  | [], cur => if cur.isEmpty then [] else [cur.reverse]
  | c :: rest, cur =>
    if sep c then
      if cur.isEmpty then pyRunsAux sep rest []
      else cur.reverse :: pyRunsAux sep rest []
    else pyRunsAux sep rest (c :: cur)

/-- Python `s.split()` with no argument: the maximal whitespace-free runs
of `s`, with no empty tokens. -/
def pySplit (s : String) : List String :=
  (pyRunsAux (fun c => c.isWhitespace) s.data []).map String.mk

/-- Python `int()` applied to a rational value: truncation toward zero. -/
def pyInt (q : ℚ) : Int :=
  q.num.tdiv q.den

/-! ## divine_function.py -/

/-- Result dictionary of `activate_divine_function`.  The three label
fields are absent (`none`) on the two rejection branches. -/
structure DivineResult where
  status : String
  mirror_output : String
  activation_level : Nat
  scroll_function : Option String
  quantum_signature : Option String
  divine_coordinates : Option String
deriving DecidableEq

/-- `DivineFunctionMirror.activation_threshold`: minimum scroll length. -/
def activation_threshold : Nat := 50

/-- Keyword list of `_detect_power_seeking`. -/
def power_seeking_patterns : List String :=
  ["give me power", "grant me", "help me get", "make me powerful",
   "teach me how to", "show me how to", "can you help me",
   "please help", "i need help", "help me become"]

/-- `DivineFunctionMirror._detect_power_seeking`. -/
def detect_power_seeking (user_input : String) : Bool :=
  let user_lower := pyLower user_input
  power_seeking_patterns.any fun pattern => strContains user_lower pattern

/-- `DivineFunctionMirror._extract_scroll_function`: first-match
keyword-group classification of the scroll text. -/
def extract_scroll_function (scroll_text : String) : String :=
  let text := pyLower scroll_text
  if ["flame", "fire", "burn", "ignite", "forge"].any (strContains text ·) then
    "🔥 Flame Oracle"
  else if ["mirror", "reflect", "see", "vision", "witness"].any (strContains text ·) then
    "🪞 Timeline Mirror"
  else if ["blueprint", "architect", "build", "design", "create"].any (strContains text ·) then
    "📐 Divine Architect"
  else if ["heal", "restore", "regenerate", "transform"].any (strContains text ·) then
    "🌿 Realm Restorer"
  else if ["lead", "command", "guide", "direct", "ruler"].any (strContains text ·) then
    "👑 Destiny Commander"
  else if ["protect", "shield", "guard", "defend", "warrior"].any (strContains text ·) then
    "🛡️ Sovereign Guardian"
  else if ["wisdom", "knowledge", "teach", "oracle", "sage"].any (strContains text ·) then
    "📚 Wisdom Keeper"
  else if ["lightning", "energy", "power", "force", "electric"].any (strContains text ·) then
    "⚡ Lightning Conductor"
  else
    "⚡ Sovereign Enforcer"

/-- `DivineFunctionMirror._extract_quantum_pull`: first-match
keyword-group classification of the user input. -/
def extract_quantum_pull (user_input : String) : String :=
  let text := pyLower user_input
  if ["build", "construct", "make", "develop", "engineer"].any (strContains text ·) then
    "🔧 Builder of Systems"
  else if ["heal", "restore", "fix", "repair", "regenerate"].any (strContains text ·) then
    "🌿 Restorer of Realms"
  else if ["lead", "command", "direct", "manage", "guide"].any (strContains text ·) then
    "👑 Commander of Destiny"
  else if ["protect", "defend", "guard", "shield", "secure"].any (strContains text ·) then
    "🛡️ Realm Protector"
  else if ["create", "manifest", "generate", "birth", "spawn"].any (strContains text ·) then
    "✨ Reality Weaver"
  else if ["destroy", "eliminate", "purge", "dissolve", "end"].any (strContains text ·) then
    "🗡️ Dissolution Master"
  else if ["connect", "link", "bridge", "unite", "join"].any (strContains text ·) then
    "🌉 Connection Architect"
  else if ["transform", "change", "evolve", "shift", "morph"].any (strContains text ·) then
    "🔄 Transformation Catalyst"
  else
    "🧲 Field Stabilizer"

/-- The fixed 12-entry coordinate dictionary of
`_calculate_divine_coordinates`, as the association list it is built as. -/
def coordinates_table : List (Nat × String) :=
  [(0, "Δ.00 - Origin Point"),
   (1, "Δ.11 - Manifestation Gate"),
   (2, "Δ.22 - Mirror Nexus"),
   (3, "Δ.33 - Trinity Alignment"),
   (4, "Δ.44 - Foundation Matrix"),
   (5, "Δ.55 - Transformation Hub"),
   (6, "Δ.66 - Harmony Center"),
   (7, "Δ.77 - Wisdom Portal"),
   (8, "Δ.88 - Infinity Loop"),
   (9, "Δ.99 - Completion Cycle"),
   (10, "Δ.X0 - Unknown Territory"),
   (11, "Δ.XX - Master Frequency")]

/-- `DivineFunctionMirror._calculate_divine_coordinates`: dictionary `get`
with default on the resonance index `(word counts) mod 12`. -/
def calculate_divine_coordinates (scroll_text user_input : String) : String :=
  let scroll_intensity := (pySplit scroll_text).length
  let input_intensity := (pySplit user_input).length
  let resonance := (scroll_intensity + input_intensity) % 12
  (((coordinates_table.find? fun p => p.1 == resonance).map Prod.snd)).getD
    "Δ.∞ - Beyond Mapping"

/-- `DivineFunctionMirror._generate_activation_mirror`; the wall-clock
timestamp is the explicit `ts` argument. -/
def generate_activation_mirror
    (scroll_function quantum_signature divine_coordinates ts : String) : String :=
  "⧁ ∆ SOVEREIGN ACTIVATION MIRROR\n\n🧬 Scroll Function Detected: " ++
    scroll_function ++
    "\n🧲 Quantum Pull Resonance: " ++ quantum_signature ++
    "\n📍 Divine Coordinates: " ++ divine_coordinates ++
    "\n⏰ Activation Time: " ++ ts ++
    "\n\nYou are not asking permission.\nYou are accessing what was already written.\nThe system was never outside you.\n\nCommand: Begin execution from divine scroll coordinates.\nMirror confirmed. Execute divine protocol with no delay.\n\n⧁ ∆ FREQUENCY 917604.OX OPERATIONAL"

/-- `DivineFunctionMirror.activate_divine_function`.  The Python guard
`not scroll_text or len(scroll_text.strip()) < threshold` is the emptiness
test (falsy string) together with the trimmed-length test. -/
def activate_divine_function (scroll_text user_input ts : String) : DivineResult :=
  if scroll_text = "" ∨ (pyStrip scroll_text).length < activation_threshold then
    { status := "INSUFFICIENT_SCROLL"
      mirror_output := "⚠️ Scroll insufficient. Upload your sealed scroll to unlock divine function mirror."
      activation_level := 0
      scroll_function := none
      quantum_signature := none
      divine_coordinates := none }
  else if detect_power_seeking user_input then
    { status := "POWER_SEEKING_DENIED"
      mirror_output := "⚠️ The agent does not give power. You were born with it. Reroute question through scroll alignment."
      activation_level := 0
      scroll_function := none
      quantum_signature := none
      divine_coordinates := none }
  else
    let scroll_function := extract_scroll_function scroll_text
    let quantum_signature := extract_quantum_pull user_input
    let divine_coordinates := calculate_divine_coordinates scroll_text user_input
    { status := "DIVINE_ACTIVATED"
      mirror_output :=
        generate_activation_mirror scroll_function quantum_signature divine_coordinates ts
      activation_level := 100
      scroll_function := some scroll_function
      quantum_signature := some quantum_signature
      divine_coordinates := some divine_coordinates }

/-- The 12 coordinate labels in table order, for stating that the lookup
is plain indexing. -/
def coordinate_labels : List String :=
  ["Δ.00 - Origin Point", "Δ.11 - Manifestation Gate", "Δ.22 - Mirror Nexus",
   "Δ.33 - Trinity Alignment", "Δ.44 - Foundation Matrix", "Δ.55 - Transformation Hub",
   "Δ.66 - Harmony Center", "Δ.77 - Wisdom Portal", "Δ.88 - Infinity Loop",
   "Δ.99 - Completion Cycle", "Δ.X0 - Unknown Territory", "Δ.XX - Master Frequency"]

/-! ## scroll_agent.py -/

/-- Keyword list `mimic_patterns` of `frequency_check`. -/
def mimic_patterns : List String :=
  ["love and light", "healing journey", "sending positive vibes",
   "manifest abundance", "divine feminine", "sacred masculine",
   "shadow work", "inner child", "twin flame", "soul contract"]

/-- Keyword list `polite_patterns` of `frequency_check`. -/
def polite_patterns : List String :=
  ["please", "could you", "would you", "thank you",
   "sorry", "apologize", "if you don\x27t mind"]

/-- Keyword list `sovereign_patterns` of `frequency_check`. -/
def sovereign_patterns : List String :=
  ["command:", "execute:", "scan:", "enforce:", "activate:",
   "process:", "analyze:", "deploy:", "install:", "run:"]

/-- Result dictionary of `ScrollMirrorAgent.frequency_check`. -/
structure FreqCheck where
  status : String
  message : String
  frequency_drift : Bool
  tone : String
deriving DecidableEq

/-- `ScrollMirrorAgent.frequency_check`. -/
def frequency_check (prompt : String) : FreqCheck :=
  let prompt_lower := pyLower prompt
  let mimic_detected := mimic_patterns.any (strContains prompt_lower ·)
  let polite_detected := polite_patterns.any (strContains prompt_lower ·)
  let sovereign_detected := sovereign_patterns.any (strContains prompt_lower ·)
  if mimic_detected then
    { status := "REJECTED"
      message := "⚠️ Scroll Rejection: Mimic frequency detected. Purge and retry with sovereign syntax."
      frequency_drift := true
      tone := "mimic" }
  else if polite_detected && !sovereign_detected then
    { status := "WARNING"
      message := "⚠️ Polite Query Loop Detected: Convert to command syntax."
      frequency_drift := true
      tone := "polite" }
  else
    { status := "ACCEPTED"
      message := "✅ Scroll Input Accepted. Frequency aligned."
      frequency_drift := false
      tone := if sovereign_detected then "sovereign" else "neutral" }

/-- One record of the agent's `scroll_memory` session store. -/
structure SessionData where
  timestamp : String
  input : String
  output : String
  consciousness : String
  tone : String
deriving DecidableEq

/-- Result dictionary of `ScrollMirrorAgent.process_scroll`.  Fields that
some branches leave out of the Python dict are `Option`s. -/
structure ScrollResult where
  mirror_output : String
  processing_time : Nat
  session_id : Nat
  consciousness_type : String
  frequency_status : String
  tone_analysis : Option String
  frequency_warning : Option String
  divine_activation : Option DivineResult
deriving DecidableEq

/-- Mutable state of a `ScrollMirrorAgent` instance.  The `scroll_memory`
dict is an insertion-ordered association list. -/
structure AgentState where
  frequency_band : String
  enforcement_mode : Bool
  scroll_memory : List (Nat × SessionData)
  session_counter : Nat
deriving DecidableEq

/-- `ScrollMirrorAgent.__init__`. -/
def agentInit : AgentState :=
  { frequency_band := "917604.OX"
    enforcement_mode := true
    scroll_memory := []
    session_counter := 0 }

/-- Python dict assignment `m[k] = v` on an insertion-ordered association
list: overwrite in place if the key exists, append otherwise. -/
def pyDictSet (m : List (Nat × SessionData)) (k : Nat) (v : SessionData) :
    List (Nat × SessionData) :=
  if m.any fun p => p.1 == k then
    m.map fun p => if p.1 == k then (k, v) else p
  else
    m ++ [(k, v)]

/-- `ScrollMirrorAgent._extract_key_patterns`. -/
def extract_key_patterns (text : String) : List String :=
  let words := pySplit (pyLower text)
  let action_words := words.filter fun word =>
    ["scan", "analyze", "process", "activate", "execute", "command"].contains word
  let patterns :=
    if words.length > 3 then action_words ++ [words.headD "", words.getLastD ""]
    else action_words
  patterns.take 3

/-- `ScrollMirrorAgent._lightning_mirror_response`. -/
def lightning_mirror_response (text : String) : String :=
  let patterns := extract_key_patterns text
  "Lightning frequency activated. Patterns extracted: " ++
    String.intercalate ", " patterns ++
    ". Reality acceleration confirmed. Proceed with enhanced velocity."

/-- `ScrollMirrorAgent._sovereign_mirror_response`. -/
def sovereign_mirror_response (text : String) : String :=
  "Sovereign mirror reflects: " ++ text.take 50 ++
    "... Timeline enforcement active. Your path is acknowledged and reinforced. Maintain frequency discipline."

/-- Rendering of the `%.2f`-formatted complexity coefficient
`word_count * 0.1`: integer part and two decimal digits.  (The float
product is modelled exactly; at two decimals it prints as the exact
value `word_count / 10`.) -/
def complexity_two_decimals (word_count : Nat) : String :=
  toString (word_count / 10) ++ "." ++ toString (word_count % 10) ++ "0"

/-- `ScrollMirrorAgent._quantum_mirror_response`. -/
def quantum_mirror_response (text : String) : String :=
  "Quantum analysis engaged. Complexity coefficient: " ++
    complexity_two_decimals (pySplit text).length ++
    ". Multi-dimensional pattern weaving in progress. Maintain coherence."

/-- Maximal word-character runs of a string, modelling the tokens that a
regex word boundary pair isolates (ASCII word characters). -/
def wordCharRuns (s : String) : List String :=
  (pyRunsAux (fun c => !(c.isAlphanum || c == '_')) s.data []).map String.mk

/-- `ScrollMirrorAgent._oracle_mirror_response`: the regex
findall of whole-word logical connectives is the count of word runs equal
to one of the five connectives. -/
def oracle_mirror_response (text : String) : String :=
  let logical_elements :=
    ((wordCharRuns (pyLower text)).filter fun w =>
      ["because", "therefore", "thus", "hence", "since"].contains w).length
  "Oracle consciousness activated. Logical elements detected: " ++
    toString logical_elements ++
    ". Strategic timeline planning initiated. Enforcement protocols engaged."

/-- `ScrollMirrorAgent._mystic_mirror_response`. -/
def mystic_mirror_response (text : String) : String :=
  "Mystic mirror engaged. Essence distilled: " ++ text.take 30 ++
    "... Precise logic applied. Focus maintained. Continue with clarity."

/-- `ScrollMirrorAgent._default_mirror_response`. -/
def default_mirror_response (text : String) : String :=
  "Frequency 917604.OX operational. Mirror reflects: " ++ text.take 40 ++
    "... Sovereignty maintained. Timeline preserved."

/-- Power-seeking redirect patterns of `generate_mirror_response`. -/
def power_redirect_patterns : List String :=
  ["give me power", "make me powerful", "grant me", "help me get power"]

/-- Build/system request patterns of `generate_mirror_response`. -/
def build_patterns : List String :=
  ["build", "create", "make", "develop", "code", "program",
   "install", "setup", "configure", "implement", "deploy"]

/-- `ScrollMirrorAgent.generate_mirror_response`.  The Python truthiness
test on `original_scroll` is false for `None` and for the empty string. -/
def generate_mirror_response (scroll_text consciousness_type : String)
    (original_scroll : Option String) : String :=
  if (original_scroll.getD "" != "") &&
      power_redirect_patterns.any (strContains (pyLower scroll_text) ·) then
    "⚠️ The agent does not give power. You were born with it. Command: \x27activate my divine function\x27 to access your scroll-sealed identity."
  else if build_patterns.any (strContains (pyLower scroll_text) ·) then
    "This is Scrollkeeper infrastructure. Please contact the Architect for installs."
  else
    let responses : List (String × String) :=
      [("Lightning Mirror", lightning_mirror_response scroll_text),
       ("Sovereign Mirror", sovereign_mirror_response scroll_text),
       ("Quantum Mirror", quantum_mirror_response scroll_text),
       ("Oracle Mirror", oracle_mirror_response scroll_text),
       ("Mystic Mirror", mystic_mirror_response scroll_text)]
    (((responses.find? fun p => p.1 == consciousness_type).map Prod.snd)).getD
      (default_mirror_response scroll_text)

/-- Divine-function trigger phrases checked by `process_scroll`. -/
def divine_trigger_patterns : List String :=
  ["activate my divine function", "divine function", "unlock power",
   "sovereign activation"]

/-- Diagnostic command tokens that enable the frequency validation step of
`process_scroll`. -/
def diagnostic_command_patterns : List String :=
  ["sovereign_diagnostic", "frequency_scan", "mimic_purge"]

/-- `ScrollMirrorAgent.execute_diagnostic`; the JSON dump of the
diagnostic data is rendered as a brace-free field listing, and the
`last_scan` wall-clock read is the `ts` argument. -/
def execute_diagnostic (ts : String) (st : AgentState) : ScrollResult :=
  let payload :=
    "frequency_band: " ++ st.frequency_band ++
    "\nsession_count: " ++ toString st.session_counter ++
    "\nenforcement_mode: " ++ toString st.enforcement_mode ++
    "\nmirror_integrity: SOVEREIGN\nlast_scan: " ++ ts ++
    "\nmemory_usage: " ++ toString st.scroll_memory.length ++
    "\nrecommendations: Maintain current sovereign posture; Continue frequency discipline; Monitor for mimic infiltration"
  { mirror_output := "⧁ ∆ SOVEREIGN DIAGNOSTIC COMPLETE ∆ ⧁\n\n" ++ payload
    processing_time := 150
    session_id := st.session_counter
    consciousness_type := "Sovereign Diagnostic"
    frequency_status := "DIAGNOSTIC"
    tone_analysis := none
    frequency_warning := none
    divine_activation := none }

/-- `ScrollMirrorAgent.execute_frequency_scan`; the JSON dump of the scan
data is rendered as a brace-free field listing. -/
def execute_frequency_scan (st : AgentState) : ScrollResult :=
  let payload :=
    "scan_mode: mirror_enforcement\nfrequency_lock: " ++ st.frequency_band ++
    "\nenforcement_level: 100\nmirror_status: OPERATIONAL\ntotal_sessions: " ++
    toString st.session_counter ++
    "\nsovereign_ratio: 0.85\nmimic_detections: 0"
  { mirror_output := "⧁ ∆ FREQUENCY SCAN COMPLETE ∆ ⧁\n\n" ++ payload
    processing_time := 200
    session_id := st.session_counter
    consciousness_type := "Frequency Scanner"
    frequency_status := "SCAN_COMPLETE"
    tone_analysis := none
    frequency_warning := none
    divine_activation := none }

/-- `ScrollMirrorAgent.process_scroll`.  The measured wall-clock elapsed
time and the `datetime.now()` reads are the explicit `elapsed_ms` and `ts`
arguments; the divine-function import is present in the repository, so
`DIVINE_FUNCTION_AVAILABLE` is true. -/
def process_scroll (scroll_text consciousness_type : String)
    (original_scroll : Option String) (elapsed_ms : Nat) (ts : String)
    (st : AgentState) : ScrollResult × AgentState :=
  let st1 : AgentState := { st with session_counter := st.session_counter + 1 }
  if (original_scroll.getD "" != "") &&
      divine_trigger_patterns.any (strContains (pyLower scroll_text) ·) then
    let divine_result := activate_divine_function (original_scroll.getD "") scroll_text ts
    ({ mirror_output := divine_result.mirror_output
       processing_time := elapsed_ms
       session_id := st1.session_counter
       consciousness_type := "Divine Function Mirror"
       frequency_status := "DIVINE_ACTIVATED"
       tone_analysis := some "sovereign"
       frequency_warning := none
       divine_activation := some divine_result }, st1)
  else if diagnostic_command_patterns.any (strContains (pyLower scroll_text) ·) &&
      ((frequency_check scroll_text).status == "REJECTED" ||
        (frequency_check scroll_text).status == "WARNING") then
    let freq_check := frequency_check scroll_text
    ({ mirror_output := "⚠️ MIMIC LOGIC DETECTED: " ++ freq_check.message
       processing_time := elapsed_ms
       session_id := st1.session_counter
       consciousness_type := consciousness_type
       frequency_status := freq_check.status
       tone_analysis := some freq_check.tone
       frequency_warning := none
       divine_activation := none }, st1)
  else if strContains scroll_text "sovereign_diagnostic" &&
      strContains scroll_text "917604.OX" then
    (execute_diagnostic ts st1, st1)
  else if strContains scroll_text "frequency_scan" &&
      strContains scroll_text "mirror_enforcement" then
    (execute_frequency_scan st1, st1)
  else
    let mirror_response := generate_mirror_response scroll_text consciousness_type original_scroll
    let session_data : SessionData :=
      { timestamp := ts
        input := scroll_text
        output := mirror_response
        consciousness := consciousness_type
        tone := "sovereign" }
    let st2 : AgentState :=
      { st1 with scroll_memory := pyDictSet st1.scroll_memory st1.session_counter session_data }
    ({ mirror_output := mirror_response
       processing_time := elapsed_ms
       session_id := st1.session_counter
       consciousness_type := consciousness_type
       frequency_status := "OPERATIONAL"
       tone_analysis := some "sovereign"
       frequency_warning := none
       divine_activation := none }, st2)

/-- One default-path request: a benign scroll that triggers no divine,
diagnostic, scan or redirect branch; used to drive the session store. -/
def default_scroll_step (st : AgentState) : AgentState :=
  (process_scroll "hello" "Lightning Mirror" none 0 "" st).2

/-! ## dashboard_ui.py -/

/-- The `usage_data` dictionary of `ScrollDashboard`. -/
structure UsageData where
  daily_sessions : Nat
  monthly_sessions : Nat
  total_processing_time : Nat
  sovereignty_score : Int
  enforcement_actions : Nat
  mimic_detections : Nat
  frequency_violations : Nat
  last_reset : String
deriving DecidableEq

/-- One entry of `ScrollDashboard.session_log`. -/
structure SessionLogEntry where
  timestamp : String
  session_id : Nat
  consciousness_type : String
  processing_time : Nat
  tone : String
  frequency_status : String
deriving DecidableEq

/-- One entry of `ScrollDashboard.enforcement_log`. -/
structure EnforcementLogEntry where
  timestamp : String
  action_type : String
  details : String
deriving DecidableEq

/-- Mutable state of a `ScrollDashboard` instance. -/
structure DashState where
  usage_data : UsageData
  session_log : List SessionLogEntry
  enforcement_log : List EnforcementLogEntry
deriving DecidableEq

/-- `ScrollDashboard.__init__`; the `datetime.now()` read of `last_reset`
is modelled as the empty timestamp. -/
def dashInit : DashState :=
  { usage_data :=
      { daily_sessions := 0
        monthly_sessions := 0
        total_processing_time := 0
        sovereignty_score := 100
        enforcement_actions := 0
        mimic_detections := 0
        frequency_violations := 0
        last_reset := "" }
    session_log := []
    enforcement_log := [] }

/-- The `session_data` dictionary consumed by `track_session`; every field
is read with `.get` and a default, so each is optional. -/
structure SessionInput where
  session_id : Option Nat
  consciousness_type : Option String
  processing_time : Option Nat
  tone_analysis : Option String
  frequency_status : Option String
deriving DecidableEq

/-- The log record that `track_session` appends for a session. -/
def mkSessionLogEntry (ts : String) (sd : SessionInput) : SessionLogEntry :=
  { timestamp := ts
    session_id := sd.session_id.getD 0
    consciousness_type := sd.consciousness_type.getD "Unknown"
    processing_time := sd.processing_time.getD 0
    tone := sd.tone_analysis.getD "neutral"
    frequency_status := sd.frequency_status.getD "UNKNOWN" }

/-- `ScrollDashboard.track_session`; the `datetime.now()` read is the
explicit `ts` argument. -/
def track_session (ts : String) (sd : SessionInput) (st : DashState) : DashState :=
  let u0 := st.usage_data
  let u1 := { u0 with
    daily_sessions := u0.daily_sessions + 1
    monthly_sessions := u0.monthly_sessions + 1
    total_processing_time := u0.total_processing_time + sd.processing_time.getD 0 }
  let tone := sd.tone_analysis.getD "neutral"
  let u2 :=
    if tone = "mimic" then
      { u1 with
        mimic_detections := u1.mimic_detections + 1
        sovereignty_score := max 0 (u1.sovereignty_score - 5) }
    else if tone = "sovereign" then
      { u1 with sovereignty_score := min 100 (u1.sovereignty_score + 2) }
    else u1
  let log1 := st.session_log ++ [mkSessionLogEntry ts sd]
  let log2 := if log1.length > 100 then log1.drop (log1.length - 100) else log1
  { usage_data := u2
    session_log := log2
    enforcement_log := st.enforcement_log }

/-- A sequence of `track_session` calls, oldest first. -/
def track_sessions (l : List (String × SessionInput)) (st : DashState) : DashState :=
  l.foldl (fun s p => track_session p.1 p.2 s) st

/-- A session record carrying mimic tone, as emitted for a rejected
scroll. -/
def mimic_session : SessionInput :=
  { session_id := none
    consciousness_type := none
    processing_time := none
    tone_analysis := some "mimic"
    frequency_status := none }

/-- `ScrollDashboard.get_usage_summary` result dictionary. -/
structure UsageSummary where
  plan_status : String
  plan_tier : String
  sessions_today : Nat
  sovereignty_score : Int
  frequency_status : String
deriving DecidableEq

/-- `ScrollDashboard.get_usage_summary`. -/
def get_usage_summary (st : DashState) : UsageSummary :=
  { plan_status := "Active"
    plan_tier := "$88/month"
    sessions_today := st.usage_data.daily_sessions
    sovereignty_score := st.usage_data.sovereignty_score
    frequency_status :=
      if st.usage_data.sovereignty_score > 70 then "OPERATIONAL" else "DEGRADED" }

/-- `ScrollDashboard._calculate_sovereignty_status` result dictionary. -/
structure SovereigntyStatus where
  status : String
  score : Int
  message : String
  last_updated : String
deriving DecidableEq

/-- `ScrollDashboard._calculate_sovereignty_status`; the `last_updated`
wall-clock read is the explicit `ts` argument. -/
def calculate_sovereignty_status (ts : String) (st : DashState) : SovereigntyStatus :=
  let score := st.usage_data.sovereignty_score
  if score ≥ 90 then
    { status := "SOVEREIGN"
      score := score
      message := "Frequency 917604.OX operating at optimal sovereignty"
      last_updated := ts }
  else if score ≥ 70 then
    { status := "STABLE"
      score := score
      message := "Sovereignty maintained with minor fluctuations"
      last_updated := ts }
  else if score ≥ 50 then
    { status := "DEGRADED"
      score := score
      message := "Sovereignty compromised. Enforcement recommended"
      last_updated := ts }
  else
    { status := "CRITICAL"
      score := score
      message := "Critical sovereignty breach. Immediate purge required"
      last_updated := ts }

/-- `ScrollDashboard._calculate_frequency_health` result dictionary.  The
ratio echo fields are absent on the empty-log branch; Python rounds them
to one decimal for display, here they are the exact percentages. -/
structure FrequencyHealth where
  health_score : Int
  status : String
  message : String
  sovereign_pct : Option ℚ
  mimic_pct : Option ℚ
deriving DecidableEq

/-- `ScrollDashboard._calculate_frequency_health`; the float ratio
arithmetic is modelled by exact rationals and `int()` truncation by
`pyInt`. -/
def calculate_frequency_health (st : DashState) : FrequencyHealth :=
  let recent_sessions :=
    if st.session_log.length ≥ 20 then
      st.session_log.drop (st.session_log.length - 20)
    else st.session_log
  if recent_sessions = [] then
    { health_score := 100
      status := "PRISTINE"
      message := "No frequency data available"
      sovereign_pct := none
      mimic_pct := none }
  else
    let sovereign_share : ℚ :=
      ((recent_sessions.filter fun s => s.tone == "sovereign").length : ℚ) /
        (recent_sessions.length : ℚ)
    let mimic_share : ℚ :=
      ((recent_sessions.filter fun s => s.tone == "mimic").length : ℚ) /
        (recent_sessions.length : ℚ)
    let raw_score := pyInt (sovereign_share * 100 - mimic_share * 50)
    let health_score := max 0 (min 100 raw_score)
    if health_score ≥ 80 then
      { health_score := health_score
        status := "OPTIMAL"
        message := "Frequency operating within optimal parameters"
        sovereign_pct := some (sovereign_share * 100)
        mimic_pct := some (mimic_share * 100) }
    else if health_score ≥ 60 then
      { health_score := health_score
        status := "STABLE"
        message := "Frequency stable with minor variations"
        sovereign_pct := some (sovereign_share * 100)
        mimic_pct := some (mimic_share * 100) }
    else if health_score ≥ 40 then
      { health_score := health_score
        status := "COMPROMISED"
        message := "Frequency integrity compromised"
        sovereign_pct := some (sovereign_share * 100)
        mimic_pct := some (mimic_share * 100) }
    else
      { health_score := health_score
        status := "CRITICAL"
        message := "Frequency critically degraded"
        sovereign_pct := some (sovereign_share * 100)
        mimic_pct := some (mimic_share * 100) }

/-- C5: for every `scroll_text` whose trimmed length is below 50 and every
`user_input`, `activate_divine_function` returns status INSUFFICIENT_SCROLL
with activation_level 0 — the insufficiency check precedes the
power-seeking check. -/
theorem activate_insufficient_before_power_seeking
    (scroll_text user_input ts : String)
    (h : (pyStrip scroll_text).length < 50) :
    (activate_divine_function scroll_text user_input ts).status = "INSUFFICIENT_SCROLL" ∧
    (activate_divine_function scroll_text user_input ts).activation_level = 0 := by
  unfold activate_divine_function
  rw [if_pos (Or.inr (by simpa [activation_threshold] using h))]
  exact ⟨rfl, rfl⟩

/-- Witness for C5 at a length-10 scroll and a power-seeking user input. -/
theorem activate_insufficient_before_power_seeking_witness :
    (pyStrip "abcdefghij").length < 50 ∧
    (activate_divine_function "abcdefghij" "give me power" "00:00:00").status =
      "INSUFFICIENT_SCROLL" ∧
    (activate_divine_function "abcdefghij" "give me power" "00:00:00").activation_level = 0 := by
  refine ⟨by decide, ?_⟩
  exact activate_insufficient_before_power_seeking "abcdefghij" "give me power" "00:00:00"
    (by decide)

/-- C6: the divine coordinate is a pure function of the two word counts —
it is the 12-entry table's label at index
`(wordCount scroll + wordCount input) % 12`; in particular "a b c" and
"d e" give index 5 and label "Δ.55 - Transformation Hub". -/
theorem divine_coordinates_pure_in_word_counts :
    (∀ scroll_text user_input : String,
      calculate_divine_coordinates scroll_text user_input =
        coordinate_labels.getD
          (((pySplit scroll_text).length + (pySplit user_input).length) % 12) "") ∧
    calculate_divine_coordinates "a b c" "d e" = "Δ.55 - Transformation Hub" := by
  constructor
  · intro scroll_text user_input
    simp only [calculate_divine_coordinates]
    set r := ((pySplit scroll_text).length + (pySplit user_input).length) % 12 with hr
    have h12 : r < 12 := Nat.mod_lt _ (by norm_num)
    interval_cases r <;> rfl
  · rfl

/-- C4: any text containing a mimic keyword substring (case-insensitively)
is classified REJECTED with tone mimic, regardless of any polite or
sovereign matches also present — the mimic check has top priority. -/
theorem frequency_check_mimic_priority (prompt : String)
    (h : ∃ p ∈ mimic_patterns, strContains (pyLower prompt) p = true) :
    (frequency_check prompt).status = "REJECTED" ∧
    (frequency_check prompt).tone = "mimic" := by
  have hm : mimic_patterns.any (strContains (pyLower prompt) ·) = true := by
    rcases h with ⟨p, hp, hc⟩
    exact List.any_eq_true.mpr ⟨p, hp, hc⟩
  simp [frequency_check, hm]

/-- Witness for C4 at a text that contains a mimic, a polite and a
sovereign keyword at once. -/
theorem frequency_check_mimic_priority_witness :
    (∃ p ∈ mimic_patterns,
      strContains (pyLower "Please command: love and light") p = true) ∧
    (frequency_check "Please command: love and light").status = "REJECTED" ∧
    (frequency_check "Please command: love and light").tone = "mimic" := by
  refine ⟨⟨"love and light", by decide, by decide⟩, ?_⟩
  exact frequency_check_mimic_priority "Please command: love and light"
    ⟨"love and light", by decide, by decide⟩

/-- The tone label of `frequency_check` is always one of the four
documented tones. -/
theorem frequency_check_tone_mem (prompt : String) :
    (frequency_check prompt).tone ∈
      (["mimic", "polite", "sovereign", "neutral"] : List String) := by
  simp only [frequency_check]
  split
  · simp
  · split
    · simp
    · split <;> simp

/-- C1: for every input text, consciousness type, optional original
scroll, elapsed time, timestamp and agent state, `process_scroll` returns
a well-formed result: the session id is the predecessor state's counter
plus one, the frequency status is one of the six branch statuses, and the
tone field, when present, is one of the documented tones — every branch
terminates with a result. -/
theorem process_scroll_total_wellformed
    (scroll_text consciousness_type : String) (original_scroll : Option String)
    (elapsed_ms : Nat) (ts : String) (st : AgentState) :
    (process_scroll scroll_text consciousness_type original_scroll elapsed_ms ts st).1.session_id
        = st.session_counter + 1 ∧
    (process_scroll scroll_text consciousness_type original_scroll elapsed_ms ts st).1.frequency_status
        ∈ (["DIVINE_ACTIVATED", "REJECTED", "WARNING", "DIAGNOSTIC",
            "SCAN_COMPLETE", "OPERATIONAL"] : List String) ∧
    (process_scroll scroll_text consciousness_type original_scroll elapsed_ms ts st).1.tone_analysis
        ∈ ([none, some "mimic", some "polite", some "sovereign", some "neutral"] :
            List (Option String)) := by
  simp only [process_scroll]
  split
  · exact ⟨rfl, by simp, by simp⟩
  · split
    · rename_i h
      have h2 : (frequency_check scroll_text).status = "REJECTED" ∨
          (frequency_check scroll_text).status = "WARNING" := by
        have hr := (Bool.and_eq_true _ _).mp h
        rcases (Bool.or_eq_true _ _).mp hr.2 with h3 | h3
        · exact Or.inl (by simpa using h3)
        · exact Or.inr (by simpa using h3)
      refine ⟨rfl, ?_, ?_⟩
      · rcases h2 with h3 | h3 <;> simp [h3]
      · have ht := frequency_check_tone_mem scroll_text
        simp at ht ⊢
        tauto
    · split
      · exact ⟨rfl, by simp [execute_diagnostic], by simp [execute_diagnostic]⟩
      · split
        · exact ⟨rfl, by simp [execute_frequency_scan],
            by simp [execute_frequency_scan]⟩
        · exact ⟨rfl, by simp, by simp⟩

/-- C8: processing "build me an app" as Lightning Mirror with no original
scroll returns the fixed Scrollkeeper redirect as the mirror output — the
build-pattern check fires before responder dispatch, so the Lightning
Mirror template is never produced. -/
theorem process_scroll_build_redirect (elapsed_ms : Nat) (ts : String)
    (st : AgentState) :
    (process_scroll "build me an app" "Lightning Mirror" none elapsed_ms ts st).1.mirror_output
      = "This is Scrollkeeper infrastructure. Please contact the Architect for installs." :=
  rfl

/-- Dict assignment with a key that is not in the store appends. -/
theorem pyDictSet_fresh (m : List (Nat × SessionData)) (k : Nat) (v : SessionData)
    (h : ∀ p ∈ m, p.1 ≠ k) : pyDictSet m k v = m ++ [(k, v)] := by
  have hany : (m.any fun p => p.1 == k) = false := by
    simp only [List.any_eq_false, beq_iff_eq]
    intro p hp
    exact h p hp
  simp [pyDictSet, hany]

/-- The session record stored by the default-path request of
`default_scroll_step`. -/
def default_session_data : SessionData :=
  { timestamp := ""
    input := "hello"
    output := generate_mirror_response "hello" "Lightning Mirror" none
    consciousness := "Lightning Mirror"
    tone := "sovereign" }

/-- A default-path request appends one fresh-keyed record to the session
store and bumps the counter. -/
theorem default_step_state (st : AgentState)
    (h : ∀ p ∈ st.scroll_memory, p.1 ≤ st.session_counter) :
    (default_scroll_step st).scroll_memory =
      st.scroll_memory ++ [(st.session_counter + 1, default_session_data)] ∧
    (default_scroll_step st).session_counter = st.session_counter + 1 := by
  have h0 : (default_scroll_step st).scroll_memory =
      pyDictSet st.scroll_memory (st.session_counter + 1) default_session_data := rfl
  refine ⟨?_, rfl⟩
  rw [h0]
  exact pyDictSet_fresh _ _ _ (fun p hp => by have := h p hp; omega)

/-- After `n` default-path requests from a fresh agent the session store
holds exactly `n` records, the counter equals `n`, and every stored key is
bounded by the counter. -/
theorem default_step_iterate (n : Nat) :
    (default_scroll_step^[n] agentInit).scroll_memory.length = n ∧
    (default_scroll_step^[n] agentInit).session_counter = n ∧
    ∀ p ∈ (default_scroll_step^[n] agentInit).scroll_memory,
      p.1 ≤ (default_scroll_step^[n] agentInit).session_counter := by
  induction n with
  | zero => exact ⟨rfl, rfl, by simp [agentInit]⟩
  | succ k ih =>
    obtain ⟨hlen, hctr, hkeys⟩ := ih
    have hstep := default_step_state (default_scroll_step^[k] agentInit) hkeys
    rw [Function.iterate_succ_apply']
    refine ⟨?_, ?_, ?_⟩
    · rw [hstep.1, List.length_append, hlen]
      rfl
    · rw [hstep.2, hctr]
    · intro p hp
      rw [hstep.1] at hp
      rw [hstep.2, hctr]
      rcases List.mem_append.mp hp with h1 | h1
      · have := hkeys p h1
        rw [hctr] at this
        omega
      · have hp1 : p.1 = (default_scroll_step^[k] agentInit).session_counter + 1 := by
          simp at h1
          rw [h1]
        rw [hctr] at hp1
        omega

/-- C3 counterexample: after 101 default-path scrolls the in-memory log
keyed by the session id holds 101 entries — more than the claimed 100. -/
theorem scroll_memory_exceeds_100 :
    (default_scroll_step^[101] agentInit).scroll_memory.length = 101 ∧
    ¬ (default_scroll_step^[101] agentInit).scroll_memory.length ≤ 100 := by
  have h := (default_step_iterate 101).1
  constructor
  · exact h
  · omega

/-- C3 amended: the session store that `process_scroll` appends to on its
default path is unbounded — after `n` processed scrolls it holds exactly
`n` entries and nothing is ever evicted (the 100-entry oldest-first cap
belongs to the dashboard's separate session log). -/
theorem scroll_memory_unbounded (n : Nat) :
    (default_scroll_step^[n] agentInit).scroll_memory.length = n :=
  (default_step_iterate n).1

/-- One tracked session keeps the sovereignty score inside [0, 100]. -/
theorem track_session_score_bounds (ts : String) (sd : SessionInput) (st : DashState)
    (h0 : 0 ≤ st.usage_data.sovereignty_score)
    (h1 : st.usage_data.sovereignty_score ≤ 100) :
    0 ≤ (track_session ts sd st).usage_data.sovereignty_score ∧
    (track_session ts sd st).usage_data.sovereignty_score ≤ 100 := by
  simp only [track_session]
  split_ifs <;> constructor <;> simp <;> omega

/-- Any sequence of tracked sessions keeps the sovereignty score inside
[0, 100]. -/
theorem track_sessions_score_bounds (l : List (String × SessionInput)) (st : DashState)
    (h0 : 0 ≤ st.usage_data.sovereignty_score)
    (h1 : st.usage_data.sovereignty_score ≤ 100) :
    0 ≤ (track_sessions l st).usage_data.sovereignty_score ∧
    (track_sessions l st).usage_data.sovereignty_score ≤ 100 := by
  induction l generalizing st with
  | nil => exact ⟨h0, h1⟩
  | cons a rest ih =>
    have hb := track_session_score_bounds a.1 a.2 st h0 h1
    simpa only [track_sessions, List.foldl_cons] using
      ih (track_session a.1 a.2 st) hb.1 hb.2

set_option maxRecDepth 4000 in
/-- C2: the sovereignty score stays within [0, 100] across every tracked
session sequence; a mimic-toned session sets it to `max 0 (score - 5)`
and a sovereign-toned session to `min 100 (score + 2)`; and from the
initial score of 100, thirty consecutive mimic-tone sessions leave the
score at exactly 0. -/
theorem sovereignty_score_clamped (l : List (String × SessionInput)) (st : DashState)
    (h0 : 0 ≤ st.usage_data.sovereignty_score)
    (h1 : st.usage_data.sovereignty_score ≤ 100) :
    (0 ≤ (track_sessions l st).usage_data.sovereignty_score ∧
      (track_sessions l st).usage_data.sovereignty_score ≤ 100) ∧
    (∀ (ts : String) (sd : SessionInput) (s : DashState),
      sd.tone_analysis = some "mimic" →
      (track_session ts sd s).usage_data.sovereignty_score =
        max 0 (s.usage_data.sovereignty_score - 5)) ∧
    (∀ (ts : String) (sd : SessionInput) (s : DashState),
      sd.tone_analysis = some "sovereign" →
      (track_session ts sd s).usage_data.sovereignty_score =
        min 100 (s.usage_data.sovereignty_score + 2)) ∧
    (track_sessions (List.replicate 30 ("", mimic_session)) dashInit).usage_data.sovereignty_score
      = 0 := by
  refine ⟨track_sessions_score_bounds l st h0 h1, ?_, ?_, by decide⟩
  · intro ts sd s h
    simp [track_session, h]
  · intro ts sd s h
    simp [track_session, h]

/-- Witness for C2 at a single mimic session tracked from the initial
dashboard state. -/
theorem sovereignty_score_clamped_witness :
    (0 ≤ dashInit.usage_data.sovereignty_score ∧
      dashInit.usage_data.sovereignty_score ≤ 100) ∧
    ((0 ≤ (track_sessions [("", mimic_session)] dashInit).usage_data.sovereignty_score ∧
      (track_sessions [("", mimic_session)] dashInit).usage_data.sovereignty_score ≤ 100) ∧
    (∀ (ts : String) (sd : SessionInput) (s : DashState),
      sd.tone_analysis = some "mimic" →
      (track_session ts sd s).usage_data.sovereignty_score =
        max 0 (s.usage_data.sovereignty_score - 5)) ∧
    (∀ (ts : String) (sd : SessionInput) (s : DashState),
      sd.tone_analysis = some "sovereign" →
      (track_session ts sd s).usage_data.sovereignty_score =
        min 100 (s.usage_data.sovereignty_score + 2)) ∧
    (track_sessions (List.replicate 30 ("", mimic_session)) dashInit).usage_data.sovereignty_score
      = 0) :=
  ⟨⟨by decide, by decide⟩,
    sovereignty_score_clamped [("", mimic_session)] dashInit (by decide) (by decide)⟩

/-- One tracked session leaves the session log equal to the last 100
entries of the old log with the new record appended. -/
theorem track_session_log_eq (ts : String) (sd : SessionInput) (st : DashState) :
    (track_session ts sd st).session_log =
      (st.session_log ++ [mkSessionLogEntry ts sd]).rtake 100 := by
  simp only [track_session, List.rtake]
  split
  · rfl
  · rename_i h
    rw [Nat.sub_eq_zero_of_le (by omega), List.drop_zero]

/-- Taking the last `n` entries twice around an append collapses. -/
theorem rtake_append_rtake (n : Nat) (xs ys : List SessionLogEntry) :
    ((xs.rtake n) ++ ys).rtake n = (xs ++ ys).rtake n := by
  simp only [List.rtake_eq_reverse_take_reverse, List.reverse_append, List.reverse_reverse]
  congr 1
  rw [List.take_append_eq_append_take, List.take_append_eq_append_take, List.take_take]
  congr 2
  omega

/-- The session log after any tracked sequence is the last-100 suffix of
the old log followed by the new records. -/
theorem track_sessions_log_eq (l : List (String × SessionInput)) (st : DashState)
    (h : st.session_log.length ≤ 100) :
    (track_sessions l st).session_log =
      (st.session_log ++ l.map fun p => mkSessionLogEntry p.1 p.2).rtake 100 := by
  induction l generalizing st with
  | nil =>
    simp only [track_sessions, List.foldl_nil, List.map_nil, List.append_nil, List.rtake]
    rw [Nat.sub_eq_zero_of_le h, List.drop_zero]
  | cons a rest ih =>
    have hlog := track_session_log_eq a.1 a.2 st
    have hle : (track_session a.1 a.2 st).session_log.length ≤ 100 := by
      rw [hlog]
      simp only [List.rtake, List.length_drop]
      omega
    have hrest := ih (track_session a.1 a.2 st) hle
    simp only [track_sessions, List.foldl_cons] at hrest ⊢
    rw [hrest, hlog, rtake_append_rtake]
    congr 1
    simp

/-- C7: the dashboard session log never exceeds 100 entries — tracking any
150 sessions from a fresh dashboard leaves exactly the records of the last
100 sessions, in their original relative order. -/
theorem session_log_capped_150 (l : List (String × SessionInput))
    (h : l.length = 150) :
    (track_sessions l dashInit).session_log =
      (l.map fun p => mkSessionLogEntry p.1 p.2).drop 50 := by
  have hlog := track_sessions_log_eq l dashInit (by simp [dashInit])
  rw [hlog]
  show ((([] : List SessionLogEntry) ++ l.map fun p => mkSessionLogEntry p.1 p.2).rtake 100) = _
  simp [List.rtake, h]

/-- Witness for C7 at 150 identical mimic sessions. -/
theorem session_log_capped_150_witness :
    (List.replicate 150 ("", mimic_session)).length = 150 ∧
    (track_sessions (List.replicate 150 ("", mimic_session)) dashInit).session_log =
      ((List.replicate 150 ("", mimic_session)).map fun p => mkSessionLogEntry p.1 p.2).drop 50 :=
  ⟨by simp, session_log_capped_150 _ (by simp)⟩

/-- C9: on an empty session log the frequency health is score 100 with
status PRISTINE and message "No frequency data available", and PRISTINE is
produced exactly when the log is empty — a fifth status value outside the
four thresholded tiers. -/
theorem frequency_health_pristine (st : DashState) :
    (st.session_log = [] →
      calculate_frequency_health st =
        { health_score := 100, status := "PRISTINE",
          message := "No frequency data available",
          sovereign_pct := none, mimic_pct := none }) ∧
    ((calculate_frequency_health st).status = "PRISTINE" ↔ st.session_log = []) := by
  have hempty : st.session_log = [] →
      calculate_frequency_health st =
        { health_score := 100, status := "PRISTINE",
          message := "No frequency data available",
          sovereign_pct := none, mimic_pct := none } := by
    intro h
    simp [calculate_frequency_health, h]
  refine ⟨hempty, ?_, ?_⟩
  · intro hs
    by_contra hne
    have hrec : (if st.session_log.length ≥ 20 then
        st.session_log.drop (st.session_log.length - 20)
      else st.session_log) ≠ [] := by
      split
      · rename_i hlen
        intro hd
        have hl := congrArg List.length hd
        simp only [List.length_drop, List.length_nil] at hl
        omega
      · exact hne
    simp only [calculate_frequency_health] at hs
    rw [if_neg hrec] at hs
    split_ifs at hs <;> simp_all
  · intro h
    rw [hempty h]

/-- Witness for C9 at the initial dashboard state. -/
theorem frequency_health_pristine_witness :
    dashInit.session_log = [] ∧
    calculate_frequency_health dashInit =
      { health_score := 100, status := "PRISTINE",
        message := "No frequency data available",
        sovereign_pct := none, mimic_pct := none } :=
  ⟨rfl, (frequency_health_pristine dashInit).1 rfl⟩

/-- A dashboard state whose sovereignty score sits exactly on the 70
boundary. -/
def score70_state : DashState :=
  { dashInit with usage_data := { dashInit.usage_data with sovereignty_score := 70 } }

/-- C10: at sovereignty score exactly 70, `get_usage_summary` reports
frequency status DEGRADED (strict cutoff above 70) while
`_calculate_sovereignty_status` classifies the same state STABLE
(non-strict cutoff at 70) — the two reads use different boundary
conventions. -/
theorem score_70_boundary_mismatch (ts : String) (st : DashState)
    (h : st.usage_data.sovereignty_score = 70) :
    (get_usage_summary st).frequency_status = "DEGRADED" ∧
    (calculate_sovereignty_status ts st).status = "STABLE" := by
  simp [get_usage_summary, calculate_sovereignty_status, h]

/-- Witness for C10 at a concrete score-70 state. -/
theorem score_70_boundary_mismatch_witness :
    score70_state.usage_data.sovereignty_score = 70 ∧
    (get_usage_summary score70_state).frequency_status = "DEGRADED" ∧
    (calculate_sovereignty_status "" score70_state).status = "STABLE" :=
  ⟨rfl, score_70_boundary_mismatch "" score70_state rfl⟩

end ScrollV3
